import Mathlib

/-!
Verification development for `backend/scripts/fetch_aircraft_specs.py`.

The Python source is shallowly embedded: Python floats are modelled as exact
rationals (`ℚ`), `re.search` calls are modelled by dedicated left-to-right
scanners with the same leftmost-match semantics as the concrete patterns
(every pattern used by the script has non-overlapping character classes, so
greedy matching without backtracking is exact), fallible code returns
`Except String`, where an `Except.error` models an uncaught Python
exception (`ValueError` from `float(...)`, `RuntimeError` from extraction,
`KeyError` from dict subscripts).
-/

set_option autoImplicit false

instance {ε α : Type} [DecidableEq ε] [DecidableEq α] : DecidableEq (Except ε α) := fun a b =>
  match a, b with
  | .ok x, .ok y => if h : x = y then .isTrue (by rw [h]) else .isFalse (by simp [h])
  | .error x, .error y => if h : x = y then .isTrue (by rw [h]) else .isFalse (by simp [h])
  | .ok _, .error _ => .isFalse (by simp)
  | .error _, .ok _ => .isFalse (by simp)

/-! ## Character classes and basic string helpers -/

/-- Whitespace as matched by the `\s` class and by `str.strip()` (ASCII range;
non-breaking spaces are replaced by `clean_text` before any strip occurs). -/
def wsChar (c : Char) : Bool :=
  c = ' ' || c = '\t' || c = '\n' || c = '\r' || c = Char.ofNat 11 || c = Char.ofNat 12

/-- The `[0-9,]` class of `([0-9][0-9,]*)`. -/
def digitComma (c : Char) : Bool := c.isDigit || c = ','

/-- The `[0-9,\.]` class of `([0-9][0-9,\.]*)`. -/
def digitCommaDot (c : Char) : Bool := c.isDigit || c = ',' || c = '.'

/-- The `[0-9.]` class of `Mach\s*([0-9.]+)`. -/
def digitDot (c : Char) : Bool := c.isDigit || c = '.'

/-- Remainder of `cs` after the first `]`, if any (`[^\]]*\]` part of the
footnote pattern: the bracket body is every char up to the first `]`). -/
def dropToRB : List Char → Option (List Char)
  | [] => none
  | c :: cs => if c = ']' then some cs else dropToRB cs

/-- Fuelled scanner for `re.sub(r"\[[^\]]*\]", "", value)`: at each `[` with a
closing `]` somewhere to the right, drop through that `]`; a `[` with no
closing `]` cannot be part of a match and is kept.  The fuel `length + 1`
always suffices since every step consumes at least one character. -/
def sbAux : Nat → List Char → List Char
  | 0, cs => cs
  | _ + 1, [] => []
  | f + 1, c :: cs =>
    if c = '[' then
      match dropToRB cs with
      | some rest => sbAux f rest
      | none => c :: sbAux f cs
    else c :: sbAux f cs

def stripBrackets (cs : List Char) : List Char := sbAux (cs.length + 1) cs

/-- Python `str.strip()`. -/
def pyStrip (cs : List Char) : List Char :=
  ((cs.dropWhile wsChar).reverse.dropWhile wsChar).reverse

/-- `value.replace("\xa0", " ")`. -/
def nbspToSpace (cs : List Char) : List Char :=
  cs.map (fun c => if c = Char.ofNat 160 then ' ' else c)

/-- `clean_text` on character lists. -/
def cleanText (cs : List Char) : List Char := pyStrip (nbspToSpace (stripBrackets cs))

/-- `clean_text(value)` from the source. -/
def clean_text (s : String) : String := String.mk (cleanText s.data)

/-- Python `str.lower()` (ASCII-adequate). -/
def lowerS (s : String) : String := String.mk (s.data.map Char.toLower)

/-- Does `needle` occur at the head of `hay`? -/
def headMatch : List Char → List Char → Bool
  | [], _ => true
  | _ :: _, [] => false
  | a :: as, b :: bs => a == b && headMatch as bs

/-- Python substring containment `needle in hay`. -/
def inL (needle : List Char) : List Char → Bool
  | [] => needle.isEmpty
  | b :: bs => headMatch needle (b :: bs) || inL needle bs

/-- `needle in hay` on strings. -/
def subIn (needle hay : String) : Bool := inL needle.data hay.data

/-- Consume a case-sensitive literal, returning the remainder. -/
def dropLitCS : List Char → List Char → Option (List Char)
  | [], cs => some cs
  | _ :: _, [] => none
  | a :: as, b :: bs => if a = b then dropLitCS as bs else none

/-- Consume a case-insensitive literal, returning the remainder. -/
def dropLitCI : List Char → List Char → Option (List Char)
  | [], cs => some cs
  | _ :: _, [] => none
  | a :: as, b :: bs => if a.toLower = b.toLower then dropLitCI as bs else none

/-! ## Numeric token values -/

/-- Value of a digit string (the model of `float` on an all-digit literal). -/
def natOfDigits (cs : List Char) : Nat := cs.foldl (fun a c => 10 * a + (c.toNat - 48)) 0

/-- `.replace(",", "")`. -/
def decomma (cs : List Char) : List Char := cs.filter (fun c => c ≠ ',')

/-- `float(tok.replace(",", ""))` for a `[0-9][0-9,]*` token: always valid. -/
def qOfIntTok (cs : List Char) : ℚ := (natOfDigits (decomma cs) : ℚ)

/-- Python `float(s)` on a token drawn from digits and dots: defined exactly
when the literal is well formed (at least one digit, at most one dot);
`float(".")` or `float("1.2.3")` raise `ValueError`, modelled as `none`. -/
def pyFloat (cs : List Char) : Option ℚ :=
  if cs.all (fun c => c.isDigit || c = '.') ∧ cs.any Char.isDigit ∧ cs.count '.' ≤ 1 then
    some ((natOfDigits (cs.takeWhile (fun c => c ≠ '.')) : ℚ) +
      (natOfDigits ((cs.dropWhile (fun c => c ≠ '.')).drop 1) : ℚ) /
        (10 ^ ((cs.dropWhile (fun c => c ≠ '.')).drop 1).length : ℚ))
  else none

/-- `float(tok.replace(",", ""))` for a `[0-9][0-9,\.]*` token, as an
exception-aware computation. -/
def tokToQ (cs : List Char) : Except String ℚ :=
  match pyFloat (decomma cs) with
  | some q => .ok q
  | none => .error "ValueError"

/-! ## The generic `re.search` scanner

Every numeric pattern in the script has the shape
`([0-9][0-9,…]*)\s*<tail>` where the capture class, `\s` and the tail
literal are pairwise disjoint, so the greedy match at a given start position
is unique: the capture is the maximal class run, whitespace is skipped
maximally, and the tail must match right after.  `re.search` tries start
positions left to right. -/

def searchTok (first cls : Char → Bool) (tail : List Char → Bool) : List Char → Option (List Char)
  | [] => none
  | c :: cs =>
    if first c ∧ tail ((cs.dropWhile cls).dropWhile wsChar) then
      some (c :: cs.takeWhile cls)
    else searchTok first cls tail cs

/-- `re.search(r"Mach\s*([0-9.]+)", text)` (case-sensitive): literal `Mach`,
maximal whitespace, then a nonempty `[0-9.]` run as the capture. -/
def searchMach : List Char → Option (List Char)
  | [] => none
  | c :: cs =>
    match dropLitCS "Mach".data (c :: cs) with
    | some r =>
      let run := (r.dropWhile wsChar).takeWhile digitDot
      if run.isEmpty then searchMach cs else some run
    | none => searchMach cs

/-! ## Pattern tails -/

/-- `km/?h`, case-insensitive. -/
def kmhTail (cs : List Char) : Bool :=
  match dropLitCI "km".data cs with
  | some ('/' :: r) => (dropLitCI "h".data r).isSome
  | some r => (dropLitCI "h".data r).isSome
  | none => false

/-- `mph`, case-insensitive. -/
def mphTail (cs : List Char) : Bool := (dropLitCI "mph".data cs).isSome

/-- `km`, case-sensitive (the distance pattern has no `IGNORECASE`). -/
def kmTail (cs : List Char) : Bool := (dropLitCS "km".data cs).isSome

/-- `nmi`, case-insensitive. -/
def nmiTail (cs : List Char) : Bool := (dropLitCI "nmi".data cs).isSome

/-- `mi`, case-sensitive. -/
def miTail (cs : List Char) : Bool := (dropLitCS "mi".data cs).isSome

/-- `m(?![0-9])`: a literal `m` not followed by a digit. -/
def mTail (cs : List Char) : Bool :=
  match cs with
  | 'm' :: r =>
    match r with
    | [] => true
    | d :: _ => !d.isDigit
  | _ => false

/-- `ft`, case-sensitive. -/
def ftTail (cs : List Char) : Bool := (dropLitCS "ft".data cs).isSome

/-- `m\^?2`. -/
def m2Tail (cs : List Char) : Bool :=
  match cs with
  | 'm' :: '^' :: '2' :: _ => true
  | 'm' :: '2' :: _ => true
  | _ => false

/-- `sq\s*ft`, case-insensitive. -/
def sqftTail (cs : List Char) : Bool :=
  match dropLitCI "sq".data cs with
  | some r => (dropLitCI "ft".data (r.dropWhile wsChar)).isSome
  | none => false

/-- `kg`, case-sensitive. -/
def kgTail (cs : List Char) : Bool := (dropLitCS "kg".data cs).isSome

/-- `t`, case-sensitive. -/
def tTail (cs : List Char) : Bool := (dropLitCS "t".data cs).isSome

/-- `lb`, case-sensitive. -/
def lbTail (cs : List Char) : Bool := (dropLitCS "lb".data cs).isSome

/-- `m\^?3`. -/
def m3Tail (cs : List Char) : Bool :=
  match cs with
  | 'm' :: '^' :: '3' :: _ => true
  | 'm' :: '3' :: _ => true
  | _ => false

/-- `(?:cu|cubic)\s*ft`, case-insensitive; the alternation tries `cu` then
`cubic`. -/
def cuftTail (cs : List Char) : Bool :=
  match dropLitCI "cu".data cs with
  | some r =>
    (dropLitCI "ft".data (r.dropWhile wsChar)).isSome ||
      (match dropLitCI "bic".data r with
       | some r2 => (dropLitCI "ft".data (r2.dropWhile wsChar)).isSome
       | none => false)
  | none => false

/-- `L`, case-sensitive (uppercase only). -/
def litreTail (cs : List Char) : Bool := (dropLitCS "L".data cs).isSome

/-- `(?:US\s*)?gal`, case-sensitive: the optional `US` branch is tried first,
then a bare `gal`. -/
def galTail (cs : List Char) : Bool :=
  (match dropLitCS "US".data cs with
   | some r => (dropLitCS "gal".data (r.dropWhile wsChar)).isSome
   | none => false) ||
    (dropLitCS "gal".data cs).isSome

/-- `kN`, case-sensitive. -/
def kNTail (cs : List Char) : Bool := (dropLitCS "kN".data cs).isSome

/-- `lbf`, case-insensitive. -/
def lbfTail (cs : List Char) : Bool := (dropLitCI "lbf".data cs).isSome

/-! ## Unit parsers

Each parser returns `Except.ok` of an optional value (`none` = Python `None`,
"no match"); `Except.error` models an uncaught `ValueError` from `float`. -/

/-- Token of `re.search(r"([0-9][0-9,]*)", …)`. -/
def numTok (cs : List Char) : Option (List Char) :=
  searchTok Char.isDigit digitComma (fun _ => true) cs

def parse_number (t : String) : Except String (Option ℚ) :=
  .ok ((numTok (cleanText t.data)).map qOfIntTok)

/-- `int(num)` for the nonnegative values `parse_number` produces. -/
def parse_int_value (t : String) : Except String (Option ℤ) :=
  (parse_number t).map (Option.map Rat.floor)

def speedKmhTok (cs : List Char) : Option (List Char) :=
  searchTok Char.isDigit digitComma kmhTail cs

def speedMphTok (cs : List Char) : Option (List Char) :=
  searchTok Char.isDigit digitComma mphTail cs

def parse_speed (t : String) : Except String (Option ℚ) :=
  let cs := cleanText t.data
  match speedKmhTok cs with
  | some g => .ok (some (qOfIntTok g))
  | none =>
    match speedMphTok cs with
    | some g => .ok (some (qOfIntTok g * (160934 / 100000 : ℚ)))
    | none =>
      match searchMach cs with
      | some g =>
        match pyFloat g with
        | some q => .ok (some (q * 1225))
        | none => .error "ValueError"
      | none => .ok none

def parse_distance (t : String) : Except String (Option ℚ) :=
  let cs := cleanText t.data
  match searchTok Char.isDigit digitComma kmTail cs with
  | some g => .ok (some (qOfIntTok g))
  | none =>
    match searchTok Char.isDigit digitComma nmiTail cs with
    | some g => .ok (some (qOfIntTok g * (1852 / 1000 : ℚ)))
    | none =>
      match searchTok Char.isDigit digitComma miTail cs with
      | some g => .ok (some (qOfIntTok g * (160934 / 100000 : ℚ)))
      | none => .ok none

def parse_length (t : String) : Except String (Option ℚ) :=
  let cs := cleanText t.data
  match searchTok Char.isDigit digitCommaDot mTail cs with
  | some g => (tokToQ g).map some
  | none =>
    match searchTok Char.isDigit digitCommaDot ftTail cs with
    | some g => (tokToQ g).map (fun q => some (q * (3048 / 10000 : ℚ)))
    | none => .ok none

def parse_area (t : String) : Except String (Option ℚ) :=
  let cs := cleanText t.data
  match searchTok Char.isDigit digitCommaDot m2Tail cs with
  | some g => (tokToQ g).map some
  | none =>
    match searchTok Char.isDigit digitCommaDot sqftTail cs with
    | some g => (tokToQ g).map (fun q => some (q * (92903 / 1000000 : ℚ)))
    | none => .ok none

def parse_mass (t : String) : Except String (Option ℚ) :=
  let cs := cleanText t.data
  match searchTok Char.isDigit digitCommaDot kgTail cs with
  | some g => (tokToQ g).map some
  | none =>
    match searchTok Char.isDigit digitCommaDot tTail cs with
    | some g => (tokToQ g).map (fun q => some (q * 1000))
    | none =>
      match searchTok Char.isDigit digitCommaDot lbTail cs with
      | some g => (tokToQ g).map (fun q => some (q * (453592 / 1000000 : ℚ)))
      | none => .ok none

def parse_volume (t : String) : Except String (Option ℚ) :=
  let cs := cleanText t.data
  match searchTok Char.isDigit digitCommaDot m3Tail cs with
  | some g => (tokToQ g).map some
  | none =>
    match searchTok Char.isDigit digitCommaDot cuftTail cs with
    | some g => (tokToQ g).map (fun q => some (q * (283168 / 10000000 : ℚ)))
    | none => .ok none

def parse_fuel_volume (t : String) : Except String (Option ℚ) :=
  let cs := cleanText t.data
  match searchTok Char.isDigit digitCommaDot litreTail cs with
  | some g => (tokToQ g).map some
  | none =>
    match searchTok Char.isDigit digitCommaDot galTail cs with
    | some g => (tokToQ g).map (fun q => some (q * (378541 / 100000 : ℚ)))
    | none => .ok none

def parse_force (t : String) : Except String (Option ℚ) :=
  let cs := cleanText t.data
  match searchTok Char.isDigit digitCommaDot kNTail cs with
  | some g => (tokToQ g).map some
  | none =>
    match searchTok Char.isDigit digitCommaDot lbfTail cs with
    | some g => (tokToQ g).map (fun q => some (q * (444822 / 100000000 : ℚ)))
    | none => .ok none

example : parse_speed "400 km/h" = .ok (some 400) := by decide
example : parse_speed "Mach ." = .error "ValueError" := by decide
example : parse_distance "2,000 km" = .ok (some 2000) := by decide
example : parse_number "abc" = .ok none := by decide
example : parse_length "1.2.3 m" = .error "ValueError" := by decide
example : clean_text "a[1]b" = "ab" := by decide

/-! ## Data model -/

/-- A value stored in an output record: Python ints, floats (as `ℚ`) and
strings. -/
inductive PyVal : Type
  | int (n : ℤ)
  | rat (q : ℚ)
  | str (s : String)
deriving DecidableEq

/-- Python truthiness for the values that occur in records. -/
def truthy : PyVal → Bool
  | .int n => n ≠ 0
  | .rat q => q ≠ 0
  | .str s => s ≠ ""

/-- `float(v)`: ints and floats convert; a string converts only when it is a
digits-and-dots literal after stripping, otherwise `ValueError`. -/
def valueToQ : PyVal → Except String ℚ
  | .int n => .ok (n : ℚ)
  | .rat q => .ok q
  | .str s =>
    match pyFloat (pyStrip s.data) with
    | some q => .ok q
    | none => .error "ValueError"

/-- Records are insertion-ordered dicts with unique keys, modelled as
association lists. -/
abbrev Entry := List (String × PyVal)

def dlookup (d : Entry) (k : String) : Option PyVal := List.lookup k d

/-- `d[k] = v`: replace the value at an existing key, else append. -/
def dset (d : Entry) (k : String) (v : PyVal) : Entry :=
  if (List.lookup k d).isSome then
    d.map (fun p => if p.1 = k then (k, v) else p)
  else d ++ [(k, v)]

/-- `d.pop(k, None)`. -/
def dpop (d : Entry) (k : String) : Entry := d.filter (fun p => p.1 ≠ k)

/-- `d.get(k, v0)`. -/
def dgetD (d : Entry) (k : String) (v0 : PyVal) : PyVal := (dlookup d k).getD v0

/-- `AircraftSpec` dataclass, with the dataclass defaults. -/
structure AircraftSpec : Type where
  id : String
  display_name : String
  wiki_page : String
  aircraft_class : String
  fuel_profile : String
  order : ℤ
  spec_type : String
  role : String := "passenger"
  variant_column : Option String := none
  seat_keywords : List String := ["seating", "3-class", "2-class", "passenger", "capacity", "max"]
  range_keywords : List String := ["range"]
  cruise_keywords : List String := ["cruise", "cruising", "speed"]
  default_seats : Option ℤ := none
deriving DecidableEq

/-- `FieldDef` dataclass. -/
structure FieldDef : Type where
  key : String
  keywords : List String
  parser : String → Except String (Option PyVal)
  skip : List String := []

/-! Registry parsers wrapped to produce `PyVal`s. -/

def p_int (t : String) : Except String (Option PyVal) :=
  (parse_int_value t).map (Option.map .int)

def p_volume (t : String) : Except String (Option PyVal) :=
  (parse_volume t).map (Option.map .rat)

def p_mass (t : String) : Except String (Option PyVal) :=
  (parse_mass t).map (Option.map .rat)

def p_fuel_volume (t : String) : Except String (Option PyVal) :=
  (parse_fuel_volume t).map (Option.map .rat)

def p_length (t : String) : Except String (Option PyVal) :=
  (parse_length t).map (Option.map .rat)

def p_area (t : String) : Except String (Option PyVal) :=
  (parse_area t).map (Option.map .rat)

def p_speed (t : String) : Except String (Option PyVal) :=
  (parse_speed t).map (Option.map .rat)

def p_force (t : String) : Except String (Option PyVal) :=
  (parse_force t).map (Option.map .rat)

/-- `clean_text` used as a field parser always succeeds with a string. -/
def p_clean_text (t : String) : Except String (Option PyVal) :=
  .ok (some (.str (clean_text t)))

def FIELD_DEFS : List FieldDef := [
  ⟨"crew", ["crew"], p_int, []⟩,
  ⟨"three_class_seats", ["3-class seats", "three-class"], p_int, []⟩,
  ⟨"two_class_seats", ["2-class seats", "two-class"], p_int, []⟩,
  ⟨"one_class_max_seats", ["1-class", "one-class", "max seating", "maximum seating"], p_int, []⟩,
  ⟨"cargo_volume_m3", ["cargo volume", "cargo capacity", "hold"], p_volume, []⟩,
  ⟨"mtow_kg", ["mtow", "max takeoff weight"], p_mass, []⟩,
  ⟨"max_payload_kg", ["max payload", "payload"], p_mass, []⟩,
  ⟨"oew_kg", ["oew", "operating empty weight"], p_mass, []⟩,
  ⟨"fuel_capacity_l", ["fuel capacity", "max fuel"], p_fuel_volume, []⟩,
  ⟨"length_m", ["length"], p_length, []⟩,
  ⟨"wingspan_m", ["wingspan", "span"], p_length, []⟩,
  ⟨"height_m", ["height"], p_length, ["width"]⟩,
  ⟨"wing_area_m2", ["wing area"], p_area, []⟩,
  ⟨"engine_type", ["engines", "engine"], p_clean_text, []⟩,
  ⟨"engine_thrust_kn", ["thrust"], p_force, []⟩,
  ⟨"service_ceiling_m", ["ceiling", "service ceiling"], p_length, []⟩,
  ⟨"max_speed_kmh", ["maximum speed", "high speed cruise"], p_speed, []⟩,
  ⟨"takeoff_distance_m", ["takeoff"], p_length, []⟩,
  ⟨"landing_distance_m", ["landing"], p_length, []⟩,
  ⟨"icao_type", ["icao", "icao type"], p_clean_text, []⟩]

/-! ## Tables

`pd.read_html` output is modelled as raw header strings and raw cell rows
(cells as their `str()` rendering; pandas renders missing cells as `"nan"`).
`extract_table_spec` cleans the headers and the first column, and treats the
cleaned first column as the row-label index; labels are assumed unique, as
`df.at` lookups are faithful only then. -/

structure RawTable : Type where
  cols : List String
  cells : List (List String)
deriving DecidableEq

/-- An indexed dataframe: remaining column headers plus
(cleaned row label, remaining cells) rows. -/
structure Df : Type where
  columns : List String
  rows : List (String × List String)
deriving DecidableEq

def getCell (r : List String) (i : Nat) : String := (r.get? i).getD "nan"

/-- Header cleaning, first-column cleaning and `set_index` of
`extract_table_spec`. -/
def mkDf (t : RawTable) : Df :=
  { columns := (t.cols.map clean_text).drop 1,
    rows := t.cells.map (fun r => (clean_text (getCell r 0), r.drop 1)) }

def has_index_keyword (labels : List String) (keywords : List String) : Bool :=
  labels.any (fun l => keywords.any (fun k => subIn (lowerS k) (lowerS l)))

/-- Position of the data column among the remaining columns. -/
def colIdx (df : Df) (col : String) : Nat := (df.columns.findIdx? (· = col)).getD 0

/-- Scan of one keyword over the rows in `find_row_value`: an entry counts
only if its label matches the keyword case-insensitively, hits no skip term,
and its cell is nonempty and not `"nan"`; otherwise scanning continues. -/
def frvRow (i : Nat) (k : String) (skips : List String) :
    List (String × List String) → Option String
  | [] => none
  | (label, cells) :: rest =>
    if subIn (lowerS k) (lowerS label) ∧ ¬ skips.any (fun s => subIn s (lowerS label)) then
      let v := getCell cells i
      if v ≠ "" ∧ v ≠ "nan" then some v else frvRow i k skips rest
    else frvRow i k skips rest

def frvGo (i : Nat) (skips : List String) (rows : List (String × List String)) :
    List String → Option String
  | [] => none
  | k :: ks =>
    match frvRow i k skips rows with
    | some v => some v
    | none => frvGo i skips rows ks

/-- `find_row_value` (the `RuntimeError` it raises is always caught by its
callers, so it is modelled as `Option`). -/
def find_row_value (df : Df) (col : String) (keywords : List String)
    (skips : List String := []) : Option String :=
  frvGo (colIdx df col) skips df.rows keywords

/-- Scan of one keyword over list items in `find_in_list` (note: the keyword
is lowercased but the label is used as stored, and skip terms are matched
against the raw label). -/
def filRow (k : String) (skips : List String) : List (String × String) → Option String
  | [] => none
  | (label, text) :: rest =>
    if skips.any (fun s => subIn s label) then filRow k skips rest
    else if subIn (lowerS k) label then some text
    else filRow k skips rest

def filGo (skips : List String) (items : List (String × String)) :
    List String → Option String
  | [] => none
  | k :: ks =>
    match filRow k skips items with
    | some v => some v
    | none => filGo skips items ks

def find_in_list (items : List (String × String)) (keywords : List String)
    (skips : List String) : Option String :=
  filGo skips items keywords

/-- Scan of one keyword in `extract_li_value`: a matching item's text is
parsed (a parser exception propagates); a falsy value (None or 0) does not
stop the scan. -/
def eliRow (k : String) (skips : List String) (parser : String → Except String (Option ℚ)) :
    List (String × String) → Except String (Option ℚ)
  | [] => .ok none
  | (label, text) :: rest =>
    if skips.any (fun s => subIn s label) then eliRow k skips parser rest
    else if subIn (lowerS k) label then
      match parser text with
      | .error e => .error e
      | .ok none => eliRow k skips parser rest
      | .ok (some v) => if v ≠ 0 then .ok (some v) else eliRow k skips parser rest
    else eliRow k skips parser rest

def eliGo (skips : List String) (parser : String → Except String (Option ℚ))
    (items : List (String × String)) : List String → Except String (Option ℚ)
  | [] => .ok none
  | k :: ks =>
    match eliRow k skips parser items with
    | .error e => .error e
    | .ok (some v) => .ok (some v)
    | .ok none => eliGo skips parser items ks

def extract_li_value (items : List (String × String)) (keywords : List String)
    (parser : String → Except String (Option ℚ)) (skips : List String := []) :
    Except String (Option ℚ) :=
  eliGo skips parser items keywords

/-- Is a parsed field value dropped?  Numeric zero and blank strings are. -/
def droppedVal : PyVal → Bool
  | .int n => n = 0
  | .rat q => q = 0
  | .str s => (pyStrip s.data).isEmpty

def ctfGo (df : Df) (col : String) : List FieldDef → Entry → Except String Entry
  | [], acc => .ok acc
  | f :: fs, acc =>
    match find_row_value df col f.keywords f.skip with
    | none => ctfGo df col fs acc
    | some raw =>
      match f.parser raw with
      | .error e => .error e
      | .ok none => ctfGo df col fs acc
      | .ok (some v) =>
        if droppedVal v then ctfGo df col fs acc
        else ctfGo df col fs (dset acc f.key v)

def collect_table_fields (df : Df) (col : String) : Except String Entry :=
  ctfGo df col FIELD_DEFS []

def clfGo (items : List (String × String)) : List FieldDef → Entry → Except String Entry
  | [], acc => .ok acc
  | f :: fs, acc =>
    match find_in_list items f.keywords f.skip with
    | none => clfGo items fs acc
    | some raw =>
      match f.parser raw with
      | .error e => .error e
      | .ok none => clfGo items fs acc
      | .ok (some v) =>
        if droppedVal v then clfGo items fs acc
        else clfGo items fs (dset acc f.key v)

def collect_list_fields (items : List (String × String)) : Except String Entry :=
  clfGo items FIELD_DEFS []

/-! ## Table extraction -/

/-- Data-column resolution: `if column:` (a named, nonempty variant column)
selects the first header containing it case-insensitively; otherwise the last
column is used. -/
def resolveColumn (cols : List String) (vc : Option String) : Option String :=
  match vc with
  | some v => if v = "" then cols.getLast? else cols.find? (fun c => subIn (lowerS v) (lowerS c))
  | none => cols.getLast?

/-- `int(parse_number(seat_val) or 0)` for an optional seat cell. -/
def seatCount (seat_val : Option String) : ℤ :=
  match seat_val with
  | none => 0
  | some sv =>
    match parse_number sv with
    | .ok none => 0
    | .ok (some q) => if q = 0 then 0 else q.floor
    | .error _ => 0

/-- `seats` after the default fallback:
`if seats == 0 and plane.default_seats is not None: seats = plane.default_seats`. -/
def seatFinal (plane : AircraftSpec) (seat_val : Option String) : ℤ :=
  match plane.default_seats with
  | some d => if seatCount seat_val = 0 then d else seatCount seat_val
  | none => seatCount seat_val

/-- One iteration of the candidate-table loop of `extract_table_spec`:
`.ok none` models `continue`, `.ok (some r)` models `return`, `.error`
models an uncaught exception. -/
def tryDf (plane : AircraftSpec) (t : RawTable) :
    Except String (Option (ℤ × ℚ × ℚ × Entry)) :=
  if t.cols.length < 2 then .ok none
  else
    let df := mkDf t
    let index := df.rows.map (fun r => r.1)
    if plane.default_seats = none ∧ ¬ has_index_keyword index plane.seat_keywords then .ok none
    else if ¬ has_index_keyword index plane.range_keywords then .ok none
    else
      match resolveColumn df.columns plane.variant_column with
      | none => .ok none
      | some column =>
        match collect_table_fields df column with
        | .error e => .error e
        | .ok extras =>
          let seatStep : Option (Option String) :=
            if plane.seat_keywords ≠ [] then
              match find_row_value df column plane.seat_keywords ["cargo", "range"] with
              | some s => some (some s)
              | none => if plane.default_seats = none then none else some none
            else if plane.default_seats = none then none else some none
          match seatStep with
          | none => .ok none
          | some seat_val =>
            match find_row_value df column plane.range_keywords [],
                find_row_value df column plane.cruise_keywords [] with
            | some range_val, some cruise_val =>
              let seats := seatFinal plane seat_val
              match parse_distance range_val with
              | .error e => .error e
              | .ok rOpt =>
                let range_km : ℚ := rOpt.getD 0
                match parse_speed cruise_val with
                | .error e => .error e
                | .ok cOpt =>
                  let cruise : ℚ := cOpt.getD 0
                  if seats = 0 ∧ plane.role ≠ "cargo" then .ok none
                  else if range_km = 0 ∨ cruise = 0 then .ok none
                  else .ok (some (seats, range_km, cruise, extras))
            | _, _ => .ok none

def extract_table_spec (plane : AircraftSpec) :
    List RawTable → Except String (ℤ × ℚ × ℚ × Entry)
  | [] => .error (plane.id ++ ": specification table not found")
  | t :: ts =>
    match tryDf plane t with
    | .error e => .error e
    | .ok (some r) => .ok r
    | .ok none => extract_table_spec plane ts

/-! ## List extraction -/

/-- A parsed document: its tables and its `<li>` items (bold lead text, if
any, and full text). -/
structure Document : Type where
  tables : List RawTable
  lis : List (Option String × String)
deriving DecidableEq

/-- `build_list_items`: keep items with a bold lead, pairing the lowercased
cleaned bold text with the item text. -/
def build_list_items (lis : List (Option String × String)) : List (String × String) :=
  lis.filterMap (fun p =>
    match p.1 with
    | some b => some (lowerS (clean_text b), p.2)
    | none => none)

def extract_list_spec (plane : AircraftSpec) (doc : Document) :
    Except String (ℤ × ℚ × ℚ × Entry) :=
  let items := build_list_items doc.lis
  match extract_li_value items plane.seat_keywords parse_number ["width", "pitch", "cargo", "range"] with
  | .error e => .error e
  | .ok seatsOpt =>
    match extract_li_value items plane.range_keywords parse_distance [] with
    | .error e => .error e
    | .ok rangeOpt =>
      match extract_li_value items plane.cruise_keywords parse_speed [] with
      | .error e => .error e
      | .ok cruiseOpt =>
        match seatsOpt, plane.default_seats with
        | none, none => .error (plane.id ++ ": missing seats")
        | _, _ =>
          let seats : ℤ :=
            match seatsOpt with
            | some q => q.floor
            | none => plane.default_seats.getD 0
          match rangeOpt, cruiseOpt with
          | some range_km, some cruise =>
            match collect_list_fields items with
            | .error e => .error e
            | .ok extras => .ok (seats, range_km, cruise, extras)
          | _, _ => .error (plane.id ++ ": missing data from bullet list")

/-! ## Derived metrics and record assembly -/

def TURNAROUND_BY_CLASS : List (String × ℤ) :=
  [("regional", 25), ("narrowbody", 45), ("widebody", 75), ("jumbo", 100)]

def FUEL_PROFILES : List (String × (String × ℚ)) :=
  [("regional_turboprop", ("seats", 18 / 1000)),
   ("regional_jet", ("seats", 24 / 1000)),
   ("regional_jet_modern", ("seats", 22 / 1000)),
   ("narrowbody_classic", ("seats", 22 / 1000)),
   ("narrowbody_modern", ("seats", 19 / 1000)),
   ("widebody_classic", ("seats", 19 / 1000)),
   ("widebody_modern", ("seats", 17 / 1000)),
   ("jumbo_legacy", ("seats", 24 / 1000)),
   ("jumbo_modern", ("seats", 21 / 1000)),
   ("cargo_widebody", ("payload", 55 / 1000000)),
   ("cargo_jumbo", ("payload", 5 / 100000))]

/-- Python 3 banker's rounding of a rational to an integer. -/
def halfEvenZ (q : ℚ) : ℤ :=
  if q - ⌊q⌋ < 1 / 2 then ⌊q⌋
  else if 1 / 2 < q - ⌊q⌋ then ⌊q⌋ + 1
  else if ⌊q⌋ % 2 = 0 then ⌊q⌋ else ⌊q⌋ + 1

/-- `round(q, 1)`. -/
def round1 (q : ℚ) : ℚ := (halfEvenZ (q * 10) : ℚ) / 10

/-- `round(q, 2)`. -/
def round2 (q : ℚ) : ℚ := (halfEvenZ (q * 100) : ℚ) / 100

def compute_fuel_cost (plane : AircraftSpec) (data : Entry) : Except String ℚ :=
  match List.lookup plane.fuel_profile FUEL_PROFILES with
  | none => .error ("KeyError: " ++ plane.fuel_profile)
  | some (profile_type, factor) =>
    let baseE : Except String ℚ :=
      if profile_type = "seats" then
        let v := dgetD data "seats" (.int 0)
        if truthy v then valueToQ v else .ok 0
      else if profile_type = "payload" then
        let payload : Option PyVal :=
          match dlookup data "max_payload_kg" with
          | some v => if truthy v then some v else dlookup data "mtow_kg"
          | none => dlookup data "mtow_kg"
        match payload with
        | some v => if truthy v then valueToQ v else .ok 0
        | none => .ok 0
      else .ok 0
    match baseE with
    | .error e => .error e
    | .ok base =>
      let seatsFallback : Bool :=
        match dlookup data "seats" with
        | some v => truthy v
        | none => false
      if base ≤ 0 ∧ seatsFallback then
        match valueToQ (dgetD data "seats" (.int 0)) with
        | .error e => .error e
        | .ok b2 => if b2 ≤ 0 then .ok 0 else .ok (round2 (b2 * factor))
      else if base ≤ 0 then .ok 0
      else .ok (round2 (base * factor))

def build_entry (plane : AircraftSpec) (doc : Document) : Except String Entry :=
  match (if plane.spec_type = "table" then extract_table_spec plane doc.tables
         else extract_list_spec plane doc) with
  | .error e => .error e
  | .ok (seats, range_km, cruise, extras) =>
    match List.lookup plane.aircraft_class TURNAROUND_BY_CLASS with
    | none => .error ("KeyError: " ++ plane.aircraft_class)
    | some tmin =>
      let entry0 : Entry :=
        [("id", .str plane.id), ("name", .str plane.display_name),
         ("range_km", .rat (round1 range_km)), ("seats", .int seats),
         ("cruise_kmh", .rat (round1 cruise)), ("role", .str plane.role),
         ("turnaround_min", .int tmin)]
      let entry1 := extras.foldl (fun e kv => dset e kv.1 kv.2) entry0
      let entry2 :=
        if plane.role = "cargo" then
          dset (dpop (dpop (dpop entry1 "three_class_seats") "two_class_seats")
            "one_class_max_seats") "seats" (.int 0)
        else entry1
      match compute_fuel_cost plane entry2 with
      | .error e => .error e
      | .ok fc => .ok (dset entry2 "fuel_cost_per_km" (.rat fc))

/-! ## The profile list and the batch loop -/

def plane_ATR72 : AircraftSpec :=
  { id := "ATR72", display_name := "ATR 72-600", wiki_page := "ATR_72",
    aircraft_class := "regional", fuel_profile := "regional_turboprop", order := 1,
    spec_type := "table", variant_column := some "ATR 72-600" }

def plane_CRJ9 : AircraftSpec :=
  { id := "CRJ9", display_name := "Bombardier CRJ900", wiki_page := "Bombardier_CRJ700_series",
    aircraft_class := "regional", fuel_profile := "regional_jet", order := 2,
    spec_type := "table", variant_column := some "CRJ900" }

def plane_E175 : AircraftSpec :=
  { id := "E175", display_name := "Embraer E175", wiki_page := "Embraer_175",
    aircraft_class := "regional", fuel_profile := "regional_jet", order := 3,
    spec_type := "table", variant_column := some "E175" }

def plane_E190 : AircraftSpec :=
  { id := "E190", display_name := "Embraer E190", wiki_page := "Embraer_190",
    aircraft_class := "regional", fuel_profile := "regional_jet", order := 4,
    spec_type := "table", variant_column := some "E190" }

def plane_E195E2 : AircraftSpec :=
  { id := "E195E2", display_name := "Embraer E195-E2", wiki_page := "Embraer_E-Jet_E2_family",
    aircraft_class := "regional", fuel_profile := "regional_jet_modern", order := 5,
    spec_type := "table", variant_column := some "E195-E2" }

def plane_B737_700 : AircraftSpec :=
  { id := "B737-700", display_name := "Boeing 737-700", wiki_page := "Boeing_737-700",
    aircraft_class := "narrowbody", fuel_profile := "narrowbody_classic", order := 10,
    spec_type := "list" }

def plane_B737_800 : AircraftSpec :=
  { id := "B737-800", display_name := "Boeing 737-800", wiki_page := "Boeing_737-800",
    aircraft_class := "narrowbody", fuel_profile := "narrowbody_classic", order := 11,
    spec_type := "list" }

def plane_B737MAX8 : AircraftSpec :=
  { id := "B737MAX8", display_name := "Boeing 737 MAX 8", wiki_page := "Boeing_737_MAX",
    aircraft_class := "narrowbody", fuel_profile := "narrowbody_modern", order := 12,
    spec_type := "table", variant_column := some "737 MAX 8" }

def plane_A320 : AircraftSpec :=
  { id := "A320", display_name := "Airbus A320ceo", wiki_page := "Airbus_A320",
    aircraft_class := "narrowbody", fuel_profile := "narrowbody_classic", order := 13,
    spec_type := "table", variant_column := some "A320" }

def plane_A320NEO : AircraftSpec :=
  { id := "A320NEO", display_name := "Airbus A320neo", wiki_page := "Airbus_A320neo_family",
    aircraft_class := "narrowbody", fuel_profile := "narrowbody_modern", order := 14,
    spec_type := "table", variant_column := some "A320neo" }

def plane_A321NEO : AircraftSpec :=
  { id := "A321NEO", display_name := "Airbus A321neo", wiki_page := "Airbus_A321neo",
    aircraft_class := "narrowbody", fuel_profile := "narrowbody_modern", order := 15,
    spec_type := "table", variant_column := some "A321neo" }

def plane_B767_300ER : AircraftSpec :=
  { id := "B767-300ER", display_name := "Boeing 767-300ER", wiki_page := "Boeing_767",
    aircraft_class := "widebody", fuel_profile := "widebody_classic", order := 20,
    spec_type := "table", variant_column := some "767-300ER" }

def plane_B777_300ER : AircraftSpec :=
  { id := "B777-300ER", display_name := "Boeing 777-300ER", wiki_page := "Boeing_777",
    aircraft_class := "widebody", fuel_profile := "widebody_classic", order := 21,
    spec_type := "table", variant_column := some "777-300ER" }

def plane_B787_9 : AircraftSpec :=
  { id := "B787-9", display_name := "Boeing 787-9", wiki_page := "Boeing_787_Dreamliner",
    aircraft_class := "widebody", fuel_profile := "widebody_modern", order := 22,
    spec_type := "table", variant_column := some "787-9" }

def plane_A330_900 : AircraftSpec :=
  { id := "A330-900", display_name := "Airbus A330-300", wiki_page := "Airbus_A330",
    aircraft_class := "widebody", fuel_profile := "widebody_modern", order := 23,
    spec_type := "table", variant_column := some "A330-300" }

def plane_A350_900 : AircraftSpec :=
  { id := "A350-900", display_name := "Airbus A350-900", wiki_page := "Airbus_A350",
    aircraft_class := "widebody", fuel_profile := "widebody_modern", order := 24,
    spec_type := "list", seat_keywords := ["seat", "passenger", "capacity"] }

def plane_B767_300F : AircraftSpec :=
  { id := "B767-300F", display_name := "Boeing 767-300F", wiki_page := "Boeing_767",
    aircraft_class := "widebody", fuel_profile := "cargo_widebody", order := 26,
    spec_type := "table", role := "cargo", default_seats := some 0,
    variant_column := some "767-300ER/F", seat_keywords := [] }

def plane_B777F : AircraftSpec :=
  { id := "B777F", display_name := "Boeing 777F", wiki_page := "Boeing_777F",
    aircraft_class := "widebody", fuel_profile := "cargo_widebody", order := 27,
    spec_type := "table", role := "cargo", default_seats := some 0,
    seat_keywords := [], variant_column := some "777-200LR/777F" }

def plane_A330_200F : AircraftSpec :=
  { id := "A330-200F", display_name := "Airbus A330-200F", wiki_page := "Airbus_A330-200F",
    aircraft_class := "widebody", fuel_profile := "cargo_widebody", order := 28,
    spec_type := "table", role := "cargo", default_seats := some 0, seat_keywords := [] }

def plane_B747_8F : AircraftSpec :=
  { id := "B747-8F", display_name := "Boeing 747-8F", wiki_page := "Boeing_747-8",
    aircraft_class := "jumbo", fuel_profile := "cargo_jumbo", order := 29,
    spec_type := "table", role := "cargo", default_seats := some 0,
    variant_column := some "747-8F", seat_keywords := [] }

def plane_B747_400 : AircraftSpec :=
  { id := "B747-400", display_name := "Boeing 747-400", wiki_page := "Boeing_747-400",
    aircraft_class := "jumbo", fuel_profile := "jumbo_legacy", order := 30,
    spec_type := "table", variant_column := some "747-400" }

def plane_A380_800 : AircraftSpec :=
  { id := "A380-800", display_name := "Airbus A380-800", wiki_page := "Airbus_A380",
    aircraft_class := "jumbo", fuel_profile := "jumbo_modern", order := 31,
    spec_type := "table", variant_column := some "A380-841" }

def PLANES : List AircraftSpec := [
  plane_ATR72, plane_CRJ9, plane_E175, plane_E190, plane_E195E2, plane_B737_700, plane_B737_800, plane_B737MAX8, plane_A320, plane_A320NEO, plane_A321NEO, plane_B767_300ER, plane_B777_300ER, plane_B787_9, plane_A330_900, plane_A350_900, plane_B767_300F, plane_B777F, plane_A330_200F, plane_B747_8F, plane_B747_400, plane_A380_800]

/-- Stable insertion (equal keys keep their original relative order), giving
Python's stable `sorted(…, key=lambda p: p.order)`. -/
def insertByOrder (x : AircraftSpec) : List AircraftSpec → List AircraftSpec
  | [] => [x]
  | y :: ys => if x.order < y.order then x :: y :: ys else y :: insertByOrder x ys

def sortByOrder (l : List AircraftSpec) : List AircraftSpec :=
  l.foldl (fun acc x => insertByOrder x acc) []

/-- The environment stands for the fetch collaborator: the parsed document
for each wiki page. -/
abbrev FetchEnv := String → Document

def mainGo (env : FetchEnv) : List AircraftSpec → Except String (List Entry)
  | [] => .ok []
  | p :: ps =>
    match build_entry p (env p.wiki_page) with
    | .error e => .error e
    | .ok en =>
      match mainGo env ps with
      | .error e => .error e
      | .ok es => .ok (en :: es)

/-- `main()` (renamed, since `main` is reserved): iterate the profiles in
declared-order rank; there is no per-profile exception handling, so the
first failure propagates. -/
def mainBatch (env : FetchEnv) : Except String (List Entry) :=
  mainGo env (sortByOrder PLANES)

/-! Concrete documents used in the theorems below. -/

/-- A qualifying specification table for the CRJ900 profile. -/
def tCRJ : RawTable :=
  ⟨["Spec", "CRJ900"],
   [["Seating capacity", "90"], ["Range", "2,000 km"], ["Cruise speed", "800 km/h"]]⟩

/-- A table that matches no profile signature (no seat or range rows). -/
def tBad : RawTable := ⟨["A", "B"], [["x", "y"]]⟩

def docCRJ : Document := ⟨[tCRJ], []⟩
def docBad : Document := ⟨[tBad], []⟩

example : extract_table_spec plane_CRJ9 [tCRJ] = .ok (90, 2000, 800, []) := by decide
example : extract_table_spec plane_ATR72 [tBad] =
    .error "ATR72: specification table not found" := by decide
example : sortByOrder PLANES = PLANES := by decide

/-! ## Helper lemmas -/

theorem halfEvenZ_intCast (n : ℤ) : halfEvenZ (n : ℚ) = n := by
  simp [halfEvenZ]

theorem round1_intCast (n : ℤ) : round1 (n : ℚ) = n := by
  have h : ((n : ℚ)) * 10 = ((10 * n : ℤ) : ℚ) := by push_cast; ring
  rw [round1, h, halfEvenZ_intCast]
  push_cast
  ring

theorem round2_intCast (n : ℤ) : round2 (n : ℚ) = n := by
  have h : ((n : ℚ)) * 100 = ((100 * n : ℤ) : ℚ) := by push_cast; ring
  rw [round2, h, halfEvenZ_intCast]
  push_cast
  ring

/-- `round(q, 2)` is the identity on hundredths. -/
theorem round2_div100 (n : ℤ) : round2 ((n : ℚ) / 100) = (n : ℚ) / 100 := by
  have h : ((n : ℚ) / 100) * 100 = ((n : ℤ) : ℚ) := by field_simp
  simp [round2, h, halfEvenZ_intCast]

/-! ## C3: speed parser order and unit conversions -/

/-- C3.  The speed parser tries `km/h`, then `mph`, then `Mach`, the first
match winning; `"400 km/h"` parses to 400, `"250 mph"` to 250 × 1.60934 =
402.335 (within 0.01 of 402.34) and `"Mach 0.85"` to 0.85 × 1225 = 1041.25. -/
theorem C3_parse_speed_order (t : String) (g : List Char) :
    (speedKmhTok (cleanText t.data) = some g → parse_speed t = .ok (some (qOfIntTok g))) ∧
    (speedKmhTok (cleanText t.data) = none → speedMphTok (cleanText t.data) = some g →
      parse_speed t = .ok (some (qOfIntTok g * (160934 / 100000 : ℚ)))) ∧
    (speedKmhTok (cleanText t.data) = none → speedMphTok (cleanText t.data) = none →
      searchMach (cleanText t.data) = some g →
      parse_speed t = (match pyFloat g with
        | some q => .ok (some (q * 1225))
        | none => .error "ValueError")) ∧
    parse_speed "400 km/h" = .ok (some 400) ∧
    (∃ q : ℚ, parse_speed "250 mph" = .ok (some q) ∧ |q - 40234 / 100| ≤ 1 / 100) ∧
    (∃ q : ℚ, parse_speed "Mach 0.85" = .ok (some q) ∧ |q - 104125 / 100| ≤ 1 / 100) := by
  refine ⟨fun h1 => ?_, fun h1 h2 => ?_, fun h1 h2 h3 => ?_, by decide, ?_, ?_⟩
  · simp only [parse_speed, h1]
  · simp only [parse_speed, h1, h2]
  · simp only [parse_speed, h1, h2, h3]
  · refine ⟨qOfIntTok ['2', '5', '0'] * (160934 / 100000 : ℚ), ?_, ?_⟩
    · have h1 : speedKmhTok (cleanText ("250 mph").data) = none := by decide
      have h2 : speedMphTok (cleanText ("250 mph").data) = some ['2', '5', '0'] := by decide
      simp only [parse_speed, h1, h2]
    · have hv : natOfDigits (decomma ['2', '5', '0']) = 250 := by decide
      rw [qOfIntTok, hv, abs_le]
      constructor <;> norm_num
  · refine ⟨(17 / 20 : ℚ) * 1225, ?_, ?_⟩
    · have h1 : speedKmhTok (cleanText ("Mach 0.85").data) = none := by decide
      have h2 : speedMphTok (cleanText ("Mach 0.85").data) = none := by decide
      have h3 : searchMach (cleanText ("Mach 0.85").data) = some ['0', '.', '8', '5'] := by decide
      have ht : (['0', '.', '8', '5'] : List Char).takeWhile (fun c => c ≠ '.') = ['0'] := by decide
      have hd : ((['0', '.', '8', '5'] : List Char).dropWhile (fun c => c ≠ '.')).drop 1 =
          ['8', '5'] := by decide
      have h0 : natOfDigits ['0'] = 0 := by decide
      have h8 : natOfDigits ['8', '5'] = 85 := by decide
      have h4 : pyFloat ['0', '.', '8', '5'] = some (17 / 20 : ℚ) := by
        rw [pyFloat.eq_def, if_pos (by decide), ht, hd, h0, h8]
        norm_num
      simp only [parse_speed, h1, h2, h3, h4]
    · rw [abs_le]
      constructor <;> norm_num

/-- C3 witness: the first conjunct applied at `"400 km/h"`. -/
theorem C3_parse_speed_order_witness :
    parse_speed "400 km/h" = .ok (some (qOfIntTok ['4', '0', '0'])) :=
  (C3_parse_speed_order "400 km/h" ['4', '0', '0']).1 (by decide)

/-! ## C7: parsers and exceptions -/

theorem tokToQ_map_error (g : List Char) (f : ℚ → Option ℚ) (e : String)
    (h : (tokToQ g).map f = .error e) : e = "ValueError" ∧ pyFloat (decomma g) = none := by
  simp only [tokToQ] at h
  split at h <;> simp_all [Except.map]

/-- C7 counterexample.  `parse_speed` is not exception-free: on `"Mach ."`
the Mach pattern captures the token `"."`, and `float(".")` raises
`ValueError`, so the claim that every unit parser returns a value or
no-match and never raises fails. -/
theorem C7_parser_raises_counterexample :
    parse_speed "Mach ." = .error "ValueError" := by decide

/-- C7 amended.  `parse_number` and `parse_distance` never raise; every
other unit parser returns a value or no-match except that it raises
`ValueError` exactly from `float` on a captured token that is not a valid
float literal: `parse_speed` only via the Mach branch, and the
decimal-accepting parsers (length, area, mass, volume, fuel volume, force)
only on a captured token with more than one decimal point. -/
theorem C7_parsers_total_amended (t : String) :
    (∃ r, parse_number t = .ok r) ∧
    (∀ e, parse_speed t = .error e → e = "ValueError" ∧
      ∃ g, searchMach (cleanText t.data) = some g ∧ pyFloat g = none) ∧
    (∃ r, parse_distance t = .ok r) ∧
    (∀ e, parse_length t = .error e → e = "ValueError" ∧
      ∃ g, pyFloat (decomma g) = none ∧
        (searchTok Char.isDigit digitCommaDot mTail (cleanText t.data) = some g ∨
         searchTok Char.isDigit digitCommaDot ftTail (cleanText t.data) = some g)) ∧
    (∀ e, parse_area t = .error e → e = "ValueError" ∧
      ∃ g, pyFloat (decomma g) = none ∧
        (searchTok Char.isDigit digitCommaDot m2Tail (cleanText t.data) = some g ∨
         searchTok Char.isDigit digitCommaDot sqftTail (cleanText t.data) = some g)) ∧
    (∀ e, parse_mass t = .error e → e = "ValueError" ∧
      ∃ g, pyFloat (decomma g) = none ∧
        (searchTok Char.isDigit digitCommaDot kgTail (cleanText t.data) = some g ∨
         searchTok Char.isDigit digitCommaDot tTail (cleanText t.data) = some g ∨
         searchTok Char.isDigit digitCommaDot lbTail (cleanText t.data) = some g)) ∧
    (∀ e, parse_volume t = .error e → e = "ValueError" ∧
      ∃ g, pyFloat (decomma g) = none ∧
        (searchTok Char.isDigit digitCommaDot m3Tail (cleanText t.data) = some g ∨
         searchTok Char.isDigit digitCommaDot cuftTail (cleanText t.data) = some g)) ∧
    (∀ e, parse_fuel_volume t = .error e → e = "ValueError" ∧
      ∃ g, pyFloat (decomma g) = none ∧
        (searchTok Char.isDigit digitCommaDot litreTail (cleanText t.data) = some g ∨
         searchTok Char.isDigit digitCommaDot galTail (cleanText t.data) = some g)) ∧
    (∀ e, parse_force t = .error e → e = "ValueError" ∧
      ∃ g, pyFloat (decomma g) = none ∧
        (searchTok Char.isDigit digitCommaDot kNTail (cleanText t.data) = some g ∨
         searchTok Char.isDigit digitCommaDot lbfTail (cleanText t.data) = some g)) := by
  refine ⟨⟨_, rfl⟩, ?_, ?_, ?_, ?_, ?_, ?_, ?_, ?_⟩
  · intro e h
    simp only [parse_speed] at h
    split at h
    · exact absurd h (by simp)
    · split at h
      · exact absurd h (by simp)
      · split at h
        · rename_i g hg
          split at h
          · exact absurd h (by simp)
          · rename_i hpf
            exact ⟨by injection h with h2; exact h2.symm, g, hg, hpf⟩
        · exact absurd h (by simp)
  · simp only [parse_distance]
    split
    · exact ⟨_, rfl⟩
    · split
      · exact ⟨_, rfl⟩
      · split
        · exact ⟨_, rfl⟩
        · exact ⟨_, rfl⟩
  · intro e h
    simp only [parse_length] at h
    split at h
    · rename_i g hg
      obtain ⟨h1, h2⟩ := tokToQ_map_error _ _ _ h
      exact ⟨h1, g, h2, Or.inl hg⟩
    · split at h
      · rename_i g hg
        obtain ⟨h1, h2⟩ := tokToQ_map_error _ _ _ h
        exact ⟨h1, g, h2, Or.inr hg⟩
      · exact absurd h (by simp)
  · intro e h
    simp only [parse_area] at h
    split at h
    · rename_i g hg
      obtain ⟨h1, h2⟩ := tokToQ_map_error _ _ _ h
      exact ⟨h1, g, h2, Or.inl hg⟩
    · split at h
      · rename_i g hg
        obtain ⟨h1, h2⟩ := tokToQ_map_error _ _ _ h
        exact ⟨h1, g, h2, Or.inr hg⟩
      · exact absurd h (by simp)
  · intro e h
    simp only [parse_mass] at h
    split at h
    · rename_i g hg
      obtain ⟨h1, h2⟩ := tokToQ_map_error _ _ _ h
      exact ⟨h1, g, h2, Or.inl hg⟩
    · split at h
      · rename_i g hg
        obtain ⟨h1, h2⟩ := tokToQ_map_error _ _ _ h
        exact ⟨h1, g, h2, Or.inr (Or.inl hg)⟩
      · split at h
        · rename_i g hg
          obtain ⟨h1, h2⟩ := tokToQ_map_error _ _ _ h
          exact ⟨h1, g, h2, Or.inr (Or.inr hg)⟩
        · exact absurd h (by simp)
  · intro e h
    simp only [parse_volume] at h
    split at h
    · rename_i g hg
      obtain ⟨h1, h2⟩ := tokToQ_map_error _ _ _ h
      exact ⟨h1, g, h2, Or.inl hg⟩
    · split at h
      · rename_i g hg
        obtain ⟨h1, h2⟩ := tokToQ_map_error _ _ _ h
        exact ⟨h1, g, h2, Or.inr hg⟩
      · exact absurd h (by simp)
  · intro e h
    simp only [parse_fuel_volume] at h
    split at h
    · rename_i g hg
      obtain ⟨h1, h2⟩ := tokToQ_map_error _ _ _ h
      exact ⟨h1, g, h2, Or.inl hg⟩
    · split at h
      · rename_i g hg
        obtain ⟨h1, h2⟩ := tokToQ_map_error _ _ _ h
        exact ⟨h1, g, h2, Or.inr hg⟩
      · exact absurd h (by simp)
  · intro e h
    simp only [parse_force] at h
    split at h
    · rename_i g hg
      obtain ⟨h1, h2⟩ := tokToQ_map_error _ _ _ h
      exact ⟨h1, g, h2, Or.inl hg⟩
    · split at h
      · rename_i g hg
        obtain ⟨h1, h2⟩ := tokToQ_map_error _ _ _ h
        exact ⟨h1, g, h2, Or.inr hg⟩
      · exact absurd h (by simp)

/-- C7 witness: the length-parser clause applied at `"1.2.3 m"`, whose
captured token `1.2.3` is not a valid float. -/
theorem C7_parsers_total_amended_witness :
    "ValueError" = "ValueError" ∧
    ∃ g, pyFloat (decomma g) = none ∧
      (searchTok Char.isDigit digitCommaDot mTail (cleanText ("1.2.3 m").data) = some g ∨
       searchTok Char.isDigit digitCommaDot ftTail (cleanText ("1.2.3 m").data) = some g) :=
  (C7_parsers_total_amended "1.2.3 m").2.2.2.1 "ValueError" (by decide)

/-! ## C4: the keyword matcher

`claimedFind`/`claimedFindTable` formalize the matcher exactly as the spec
words it (first entry whose label contains the keyword case-insensitively
and contains no exclusion term, keywords in priority order);
`claimedRowFindUsable` adds the cell-usability condition that
`find_row_value` actually imposes. -/

def claimedFind (items : List (String × String)) (kws skips : List String) : Option String :=
  kws.findSome? (fun k =>
    (items.find? (fun p =>
      subIn (lowerS k) (lowerS p.1) && !(skips.any (fun s => subIn s (lowerS p.1))))).map
      (fun p => p.2))

def claimedFindTable (df : Df) (col : String) (kws skips : List String) : Option String :=
  kws.findSome? (fun k =>
    (df.rows.find? (fun p =>
      subIn (lowerS k) (lowerS p.1) && !(skips.any (fun s => subIn s (lowerS p.1))))).map
      (fun p => getCell p.2 (colIdx df col)))

def claimedRowFindUsable (df : Df) (col : String) (kws skips : List String) : Option String :=
  kws.findSome? (fun k => df.rows.findSome? (fun p =>
    if (subIn (lowerS k) (lowerS p.1) ∧ ¬ skips.any (fun s => subIn s (lowerS p.1))) ∧
        (getCell p.2 (colIdx df col) ≠ "" ∧ getCell p.2 (colIdx df col) ≠ "nan") then
      some (getCell p.2 (colIdx df col))
    else none))

theorem frvRow_findSome (i : Nat) (k : String) (skips : List String)
    (rows : List (String × List String)) :
    frvRow i k skips rows = rows.findSome? (fun p =>
      if (subIn (lowerS k) (lowerS p.1) ∧ ¬ skips.any (fun s => subIn s (lowerS p.1))) ∧
          (getCell p.2 i ≠ "" ∧ getCell p.2 i ≠ "nan") then
        some (getCell p.2 i)
      else none) := by
  induction rows with
  | nil => simp [frvRow]
  | cons p rest ih =>
    obtain ⟨l, cs⟩ := p
    simp only [frvRow, List.findSome?_cons]
    by_cases h1 : subIn (lowerS k) (lowerS l) ∧ ¬ skips.any (fun s => subIn s (lowerS l))
    · rw [if_pos h1]
      by_cases h2 : getCell cs i ≠ "" ∧ getCell cs i ≠ "nan"
      · rw [if_pos h2, if_pos ⟨h1, h2⟩]
      · rw [if_neg h2, if_neg (fun hc => h2 hc.2), ih]
    · rw [if_neg h1, if_neg (fun hc => h1 hc.1), ih]

theorem frvGo_findSome (i : Nat) (skips : List String)
    (rows : List (String × List String)) (kws : List String) :
    frvGo i skips rows kws = kws.findSome? (fun k => frvRow i k skips rows) := by
  induction kws with
  | nil => simp [frvGo]
  | cons k ks ih =>
    simp only [frvGo, List.findSome?_cons]
    cases frvRow i k skips rows <;> simp [ih]

theorem find_row_value_eq_claimed (df : Df) (col : String) (kws skips : List String) :
    find_row_value df col kws skips = claimedRowFindUsable df col kws skips := by
  rw [find_row_value, claimedRowFindUsable, frvGo_findSome]
  simp only [frvRow_findSome]

theorem filRow_find (k : String) (skips : List String) (items : List (String × String))
    (hlow : ∀ p ∈ items, p.1 = lowerS p.1) :
    filRow k skips items =
      (items.find? (fun p =>
        subIn (lowerS k) (lowerS p.1) && !(skips.any (fun s => subIn s (lowerS p.1))))).map
        (fun p => p.2) := by
  induction items with
  | nil => simp [filRow]
  | cons p rest ih =>
    obtain ⟨l, t⟩ := p
    have hl : l = lowerS l := hlow (l, t) (List.mem_cons_self _ _)
    have ihr := ih (fun q hq => hlow q (List.mem_cons_of_mem _ hq))
    simp only [filRow, List.find?_cons]
    rw [← hl]
    by_cases ha : skips.any (fun s => subIn s l)
    · rw [if_pos ha]
      simp only [ha, Bool.not_true, Bool.and_false, ihr]
    · rw [if_neg ha]
      have hna : skips.any (fun s => subIn s l) = false := by
        exact Bool.eq_false_iff.mpr ha
      by_cases hk : subIn (lowerS k) l
      · simp only [if_pos hk, hk, hna, Bool.not_false, Bool.and_true]
        simp
      · have hnk : subIn (lowerS k) l = false := Bool.eq_false_iff.mpr hk
        simp only [if_neg hk, hnk, Bool.false_and, ihr]
        simp

theorem filGo_findSome (skips : List String) (items : List (String × String))
    (kws : List String) :
    filGo skips items kws = kws.findSome? (fun k => filRow k skips items) := by
  induction kws with
  | nil => simp [filGo]
  | cons k ks ih =>
    simp only [filGo, List.findSome?_cons]
    cases filRow k skips items <;> simp [ih]

/-- The table used in the C4 example: the first row matches the seat keyword
but is excluded by `"pitch"`. -/
def df180 : Df := ⟨["Val"], [("seat pitch", ["32 in"]), ("seating capacity", ["180"])]⟩

/-- The table used in the C4 counterexample: the first row matches the
keyword and has no exclusion hit, but its cell is `"nan"`. -/
def dfNan : Df := ⟨["Val"], [("seats", ["nan"]), ("seats total", ["180"])]⟩

/-- C4 counterexample.  On a table whose first keyword-matching,
exclusion-free row holds the unusable cell `"nan"`, `find_row_value` does not
return that first entry (as the claim states, formalized by
`claimedFindTable`) but scans on to a later row. -/
theorem C4_first_match_counterexample :
    claimedFindTable dfNan "Val" ["seat"] [] = some "nan" ∧
    find_row_value dfNan "Val" ["seat"] [] = some "180" ∧
    find_row_value dfNan "Val" ["seat"] [] ≠ claimedFindTable dfNan "Val" ["seat"] [] := by
  refine ⟨by decide, by decide, ?_⟩
  intro h
  rw [(by decide : find_row_value dfNan "Val" ["seat"] [] = some "180"),
    (by decide : claimedFindTable dfNan "Val" ["seat"] [] = some "nan")] at h
  exact absurd h (by decide)

/-- C4 amended.  The matcher scans keywords in declared order and entries in
natural order, returning the first entry whose label contains the keyword
case-insensitively and contains no exclusion term — exactly so for the list
matcher (whose labels are stored lowercased), while the table matcher
additionally requires the entry's cell to be nonempty and not `"nan"`,
scanning past entries that fail that.  A seat search over rows
`"seat pitch"` / `"seating capacity"` with exclusion `"pitch"` matches only
the second row and yields 180. -/
theorem C4_keyword_matcher_amended (items : List (String × String)) (df : Df) (col : String)
    (kws skips : List String) :
    ((∀ p ∈ items, p.1 = lowerS p.1) →
      find_in_list items kws skips = claimedFind items kws skips) ∧
    find_row_value df col kws skips = claimedRowFindUsable df col kws skips ∧
    (find_row_value df180 "Val" ["seat"] ["pitch"] = some "180" ∧
     parse_number "180" = .ok (some 180) ∧
     ¬ (subIn (lowerS "seat") (lowerS "seat pitch") ∧
        ¬ ["pitch"].any (fun s => subIn s (lowerS "seat pitch"))) ∧
     (subIn (lowerS "seat") (lowerS "seating capacity") ∧
      ¬ ["pitch"].any (fun s => subIn s (lowerS "seating capacity")))) := by
  refine ⟨fun hlow => ?_, find_row_value_eq_claimed df col kws skips,
    by decide, by decide, by decide, by decide⟩
  rw [find_in_list, claimedFind, filGo_findSome]
  have he : (fun k => filRow k skips items) = fun k =>
      (items.find? (fun p =>
        subIn (lowerS k) (lowerS p.1) && !(skips.any (fun s => subIn s (lowerS p.1))))).map
        (fun p => p.2) :=
    funext (fun k => filRow_find k skips items hlow)
  rw [he]

/-- C4 witness: the list-matcher clause applied to lowercased rows. -/
theorem C4_keyword_matcher_amended_witness :
    find_in_list [("seat pitch", "seat pitch: 32 in"), ("seating capacity", "seating capacity: 180")]
        ["seat"] ["pitch"] =
      claimedFind [("seat pitch", "seat pitch: 32 in"), ("seating capacity", "seating capacity: 180")]
        ["seat"] ["pitch"] :=
  (C4_keyword_matcher_amended
    [("seat pitch", "seat pitch: 32 in"), ("seating capacity", "seating capacity: 180")]
    dfNan "Val" ["seat"] ["pitch"]).1 (by decide)

/-! ## C10: scanning past unusable values -/

/-- The claim's reading of the list-path rule: the first *item* that matches
any keyword (and no skip term) and parses to a nonzero value. -/
def itemMajorFirst (items : List (String × String)) (kws skips : List String)
    (parser : String → Except String (Option ℚ)) : Option ℚ :=
  items.findSome? (fun p =>
    if ¬ skips.any (fun s => subIn s p.1) ∧ kws.any (fun k => subIn (lowerS k) p.1) then
      match parser p.2 with
      | .ok (some v) => if v ≠ 0 then some v else none
      | _ => none
    else none)

/-- The code's rule: keywords in priority order and, per keyword, the first
matching item with a truthy parsed value. -/
def kwMajorFirst (items : List (String × String)) (kws skips : List String)
    (parser : String → Except String (Option ℚ)) : Option ℚ :=
  kws.findSome? (fun k => items.findSome? (fun p =>
    if ¬ skips.any (fun s => subIn s p.1) ∧ subIn (lowerS k) p.1 then
      match parser p.2 with
      | .ok (some v) => if v ≠ 0 then some v else none
      | _ => none
    else none))

theorem eliRow_findSome (k : String) (skips : List String)
    (parser : String → Except String (Option ℚ)) (items : List (String × String))
    (hok : ∀ p ∈ items, ∃ r, parser p.2 = .ok r) :
    eliRow k skips parser items = .ok (items.findSome? (fun p =>
      if ¬ skips.any (fun s => subIn s p.1) ∧ subIn (lowerS k) p.1 then
        match parser p.2 with
        | .ok (some v) => if v ≠ 0 then some v else none
        | _ => none
      else none)) := by
  induction items with
  | nil => simp [eliRow]
  | cons p rest ih =>
    obtain ⟨l, t⟩ := p
    have ihr := ih (fun q hq => hok q (List.mem_cons_of_mem _ hq))
    obtain ⟨r, hr⟩ := hok (l, t) (List.mem_cons_self _ _)
    simp only [eliRow, List.findSome?_cons]
    by_cases ha : skips.any (fun s => subIn s l)
    · rw [if_pos ha, if_neg (fun hc => hc.1 ha), ihr]
    · rw [if_neg ha]
      by_cases hk : subIn (lowerS k) l
      · rw [if_pos hk, if_pos ⟨ha, hk⟩, hr]
        cases r with
        | none => simp [ihr]
        | some v =>
          by_cases hv : v ≠ 0
          · simp [hv]
          · simp [hv, ihr]
      · rw [if_neg hk, if_neg (fun hc => hk hc.2), ihr]

theorem eliGo_findSome (skips : List String) (parser : String → Except String (Option ℚ))
    (items : List (String × String)) (kws : List String)
    (hok : ∀ p ∈ items, ∃ r, parser p.2 = .ok r) :
    eliGo skips parser items kws = .ok (kws.findSome? (fun k => items.findSome? (fun p =>
      if ¬ skips.any (fun s => subIn s p.1) ∧ subIn (lowerS k) p.1 then
        match parser p.2 with
        | .ok (some v) => if v ≠ 0 then some v else none
        | _ => none
      else none))) := by
  induction kws with
  | nil => simp [eliGo]
  | cons k ks ih =>
    simp only [eliGo, List.findSome?_cons, eliRow_findSome k skips parser items hok]
    cases h : items.findSome? (fun p =>
      if ¬ skips.any (fun s => subIn s p.1) ∧ subIn (lowerS k) p.1 then
        match parser p.2 with
        | .ok (some v) => if v ≠ 0 then some v else none
        | _ => none
      else none) with
    | none => rw [ih]
    | some v => rfl

/-- The bullet items used in the C10 counterexample: under the cruise
keywords `["cruise", "cruising", "speed"]`, keyword priority picks the
second item (850) although the first item already matches the keyword
`"speed"` and parses to the nonzero 900. -/
def itemsCruise : List (String × String) :=
  [("speed", "900 km/h"), ("cruise speed", "850 km/h")]

/-- C10 counterexample.  `extract_li_value` is keyword-major, not
item-major: on `itemsCruise` it returns 850, while the first item matching
a keyword and parsing to a nonzero value (the claim's rule, formalized by
`itemMajorFirst`) holds 900. -/
theorem C10_item_order_counterexample :
    extract_li_value itemsCruise ["cruise", "cruising", "speed"] parse_speed [] =
      .ok (some 850) ∧
    itemMajorFirst itemsCruise ["cruise", "cruising", "speed"] [] parse_speed = some 900 ∧
    (850 : ℚ) ≠ 900 := by
  refine ⟨by decide, by decide, by decide⟩

/-- The bullet items used in the C10 zero-skip example: the first
range-matching item parses to zero and is scanned past. -/
def itemsRange : List (String × String) :=
  [("range", "range: 0 km"), ("range (max)", "range: 5,000 km")]

/-- C10 amended.  Both matchers continue scanning past a keyword-matching
entry whose value is unusable — `find_row_value` past an empty or `"nan"`
cell, `extract_li_value` past an item that fails to parse or parses to
zero — so the first label-matching entry does not always determine the
result; on the list path the result is keyword-major: for each keyword in
priority order, the first item matching that keyword with a nonzero parsed
value, keyword priority outranking item order. -/
theorem C10_scan_past_unusable (items : List (String × String)) (kws skips : List String)
    (parser : String → Except String (Option ℚ)) :
    ((∀ p ∈ items, ∃ r, parser p.2 = .ok r) →
      extract_li_value items kws parser skips = .ok (kwMajorFirst items kws skips parser)) ∧
    (claimedFindTable dfNan "Val" ["seat"] [] = some "nan" ∧
     find_row_value dfNan "Val" ["seat"] [] = some "180") ∧
    (extract_li_value itemsRange ["range"] parse_distance [] = .ok (some 5000) ∧
     parse_distance "range: 0 km" = .ok (some 0)) := by
  refine ⟨fun hok => ?_, ⟨by decide, by decide⟩, by decide, by decide⟩
  rw [extract_li_value, kwMajorFirst]
  exact eliGo_findSome skips parser items kws hok

/-- C10 witness: the keyword-major characterization applied to `itemsRange`
with the never-raising `parse_number`. -/
theorem C10_scan_past_unusable_witness :
    extract_li_value itemsRange ["range"] parse_number [] =
      .ok (kwMajorFirst itemsRange ["range"] [] parse_number) :=
  (C10_scan_past_unusable itemsRange ["range"] [] parse_number).1
    (fun _ _ => ⟨_, rfl⟩)

/-! ## C1: acceptance conditions -/

theorem tryDf_accept (plane : AircraftSpec) (t : RawTable) (s : ℤ) (r c : ℚ) (ex : Entry)
    (h : tryDf plane t = .ok (some (s, r, c, ex))) :
    (s ≠ 0 ∨ plane.role = "cargo") ∧ r ≠ 0 ∧ c ≠ 0 := by
  simp only [tryDf] at h
  repeat' split at h
  all_goals try exact Except.noConfusion h
  all_goals try exact Option.noConfusion (Except.ok.inj h)
  injection h with h1
  injection h1 with h2
  injection h2 with p1 p2
  injection p2 with p3 p4
  injection p4 with p5 p6
  subst p1 p3 p5
  constructor
  · tauto
  constructor
  · tauto
  tauto

theorem extract_table_spec_accept (plane : AircraftSpec) (dfs : List RawTable)
    (s : ℤ) (r c : ℚ) (ex : Entry)
    (h : extract_table_spec plane dfs = .ok (s, r, c, ex)) :
    (s ≠ 0 ∨ plane.role = "cargo") ∧ r ≠ 0 ∧ c ≠ 0 := by
  induction dfs with
  | nil => simp [extract_table_spec] at h
  | cons t ts ih =>
    simp only [extract_table_spec] at h
    split at h
    · exact Except.noConfusion h
    · rename_i res heq
      injection h with h1
      subst h1
      exact tryDf_accept plane t s r c ex heq
    · exact ih h

theorem eliRow_ok_some (k : String) (skips : List String)
    (parser : String → Except String (Option ℚ)) (items : List (String × String)) (v : ℚ)
    (h : eliRow k skips parser items = .ok (some v)) : v ≠ 0 := by
  induction items with
  | nil => simp [eliRow] at h
  | cons p rest ih =>
    obtain ⟨l, t⟩ := p
    simp only [eliRow] at h
    split at h
    · exact ih h
    · split at h
      · split at h
        · simp at h
        · exact ih h
        · split at h
          · rename_i hv2
            injection h with h1
            injection h1 with h2
            subst h2
            exact hv2
          · exact ih h
      · exact ih h

theorem eliGo_ok_some (skips : List String) (parser : String → Except String (Option ℚ))
    (items : List (String × String)) (kws : List String) (v : ℚ)
    (h : eliGo skips parser items kws = .ok (some v)) : v ≠ 0 := by
  induction kws with
  | nil => simp [eliGo] at h
  | cons k ks ih =>
    simp only [eliGo] at h
    split at h
    · simp at h
    · rename_i v2 heq
      injection h with h1
      injection h1 with h2
      subst h2
      exact eliRow_ok_some k skips parser items _ heq
    · exact ih h

theorem extract_li_value_ok_some (items : List (String × String)) (kws : List String)
    (parser : String → Except String (Option ℚ)) (skips : List String) (v : ℚ)
    (h : extract_li_value items kws parser skips = .ok (some v)) : v ≠ 0 :=
  eliGo_ok_some skips parser items kws v h

theorem extract_list_spec_accept (plane : AircraftSpec) (doc : Document)
    (s : ℤ) (r c : ℚ) (ex : Entry)
    (h : extract_list_spec plane doc = .ok (s, r, c, ex)) : r ≠ 0 ∧ c ≠ 0 := by
  simp only [extract_list_spec] at h
  repeat' split at h
  all_goals try exact Except.noConfusion h
  all_goals injection h with h1
  all_goals injection h1 with p1 p2
  all_goals injection p2 with p3 p4
  all_goals injection p4 with p5 p6
  all_goals subst p3 p5
  all_goals exact ⟨extract_li_value_ok_some _ _ _ _ _ (by assumption),
    extract_li_value_ok_some _ _ _ _ _ (by assumption)⟩

/-- C1.  Table extraction accepts a candidate table only when the extracted
seat count is nonzero or the role is cargo, the range is nonzero and the
cruise speed is nonzero; with no accepted candidate it raises instead of
producing a record, and list extraction likewise never returns a record
with zero range or cruise. -/
theorem C1_accept_conditions (plane : AircraftSpec) (dfs : List RawTable)
    (doc : Document) (s : ℤ) (r c : ℚ) (ex : Entry) :
    (extract_table_spec plane dfs = .ok (s, r, c, ex) →
      (s ≠ 0 ∨ plane.role = "cargo") ∧ r ≠ 0 ∧ c ≠ 0) ∧
    (extract_list_spec plane doc = .ok (s, r, c, ex) → r ≠ 0 ∧ c ≠ 0) ∧
    extract_table_spec plane [] = .error (plane.id ++ ": specification table not found") :=
  ⟨extract_table_spec_accept plane dfs s r c ex,
   extract_list_spec_accept plane doc s r c ex, rfl⟩

/-- C1 witness: the table clause applied to the CRJ900 profile on a
qualifying document. -/
theorem C1_accept_conditions_witness :
    ((90 : ℤ) ≠ 0 ∨ plane_CRJ9.role = "cargo") ∧ (2000 : ℚ) ≠ 0 ∧ (800 : ℚ) ≠ 0 :=
  (C1_accept_conditions plane_CRJ9 [tCRJ] docCRJ 90 2000 800 []).1 (by decide)

/-! ## C8: variant-column resolution -/

theorem find?_first {α : Type} (p : α → Bool) :
    ∀ (l : List α) (x : α), l.find? p = some x →
      p x = true ∧ ∃ l1 l2, l = l1 ++ x :: l2 ∧ ∀ y ∈ l1, p y = false := by
  intro l
  induction l with
  | nil => intro x h; simp [List.find?] at h
  | cons a l ih =>
    intro x h
    by_cases hp : p a
    · rw [List.find?_cons_of_pos _ hp] at h
      injection h with h1
      subst h1
      exact ⟨hp, [], l, rfl, by simp⟩
    · rw [List.find?_cons_of_neg _ hp] at h
      obtain ⟨hx, l1, l2, hl, hall⟩ := ih x h
      refine ⟨hx, a :: l1, l2, by rw [hl]; rfl, ?_⟩
      intro y hy
      rcases List.mem_cons.mp hy with hy1 | hy2
      · rw [hy1]
        exact Bool.eq_false_iff.mpr hp
      · exact hall y hy2

theorem find?_none_of_all {α : Type} (p : α → Bool) :
    ∀ l : List α, (∀ y ∈ l, p y = false) → l.find? p = none := by
  intro l
  induction l with
  | nil => intro _; rfl
  | cons a l ih =>
    intro hall
    rw [List.find?_cons_of_neg _ (by rw [hall a (List.mem_cons_self _ _)]; exact Bool.false_ne_true)]
    exact ih (fun y hy => hall y (List.mem_cons_of_mem _ hy))

/-- C8.  With a named (nonempty) variant column, the selected data column is
the first header containing the name case-insensitively; when no header
contains it the candidate table is rejected and extraction moves on to the
next table; with no variant column named, the last column is used. -/
theorem C8_variant_column (plane : AircraftSpec) (t : RawTable) (ts : List RawTable)
    (v c : String) :
    (plane.variant_column = some v → v ≠ "" →
      resolveColumn (mkDf t).columns (some v) = some c →
      subIn (lowerS v) (lowerS c) = true ∧
      ∃ l1 l2, (mkDf t).columns = l1 ++ c :: l2 ∧
        ∀ c2 ∈ l1, subIn (lowerS v) (lowerS c2) = false) ∧
    (plane.variant_column = some v → v ≠ "" →
      (∀ c2 ∈ (mkDf t).columns, subIn (lowerS v) (lowerS c2) = false) →
      extract_table_spec plane (t :: ts) = extract_table_spec plane ts) ∧
    (plane.variant_column = none →
      ∀ cols : List String, resolveColumn cols plane.variant_column = cols.getLast?) := by
  refine ⟨fun _ hne h => ?_, fun hv hne hno => ?_, fun hv cols => ?_⟩
  · rw [resolveColumn, if_neg hne] at h
    exact find?_first _ _ _ h
  · have hrc : resolveColumn (mkDf t).columns (some v) = none := by
      rw [resolveColumn, if_neg hne]
      exact find?_none_of_all _ _ hno
    have htry : tryDf plane t = .ok none := by
      simp only [tryDf]
      split
      · rfl
      · split
        · rfl
        · split
          · rfl
          · simp only [hv, hrc]
    simp only [extract_table_spec, htry]
  · rw [hv, resolveColumn]

/-- C8 witness: rejection applied to the CRJ900 profile on a table with no
matching header. -/
theorem C8_variant_column_witness :
    extract_table_spec plane_CRJ9
        [⟨["Spec", "Other"], [["Seating capacity", "90"], ["Range", "2,000 km"]]⟩] =
      extract_table_spec plane_CRJ9 [] :=
  (C8_variant_column plane_CRJ9
    ⟨["Spec", "Other"], [["Seating capacity", "90"], ["Range", "2,000 km"]]⟩ [] "CRJ900" "").2.1
    (by decide) (by decide) (by decide)

/-! ## C9: extras carry no zero or blank values -/

theorem mem_dset (d : Entry) (k : String) (v : PyVal) :
    ∀ kv ∈ dset d k v, kv ∈ d ∨ kv.2 = v := by
  intro kv hkv
  rw [dset] at hkv
  split at hkv
  · obtain ⟨p, hp, hfp⟩ := List.mem_map.mp hkv
    by_cases he : p.1 = k
    · rw [if_pos he] at hfp
      right
      rw [← hfp]
    · rw [if_neg he] at hfp
      left
      rw [← hfp]
      exact hp
  · rcases List.mem_append.mp hkv with h1 | h2
    · exact Or.inl h1
    · right
      rw [List.mem_singleton.mp h2]

theorem ctfGo_good (df : Df) (col : String) :
    ∀ (fs : List FieldDef) (acc ex : Entry),
      (∀ kv ∈ acc, droppedVal kv.2 = false) →
      ctfGo df col fs acc = .ok ex → ∀ kv ∈ ex, droppedVal kv.2 = false := by
  intro fs
  induction fs with
  | nil =>
    intro acc ex hacc h
    rw [ctfGo] at h
    injection h with h1
    subst h1
    exact hacc
  | cons f fs ih =>
    intro acc ex hacc h
    rw [ctfGo] at h
    split at h
    · exact ih acc ex hacc h
    · split at h
      · exact Except.noConfusion h
      · exact ih acc ex hacc h
      · split at h
        · exact ih acc ex hacc h
        · rename_i hdrop
          refine ih _ ex ?_ h
          intro kv hkv
          rcases mem_dset acc f.key _ kv hkv with h1 | h2
          · exact hacc kv h1
          · rw [h2]
            exact Bool.eq_false_iff.mpr hdrop

theorem clfGo_good (items : List (String × String)) :
    ∀ (fs : List FieldDef) (acc ex : Entry),
      (∀ kv ∈ acc, droppedVal kv.2 = false) →
      clfGo items fs acc = .ok ex → ∀ kv ∈ ex, droppedVal kv.2 = false := by
  intro fs
  induction fs with
  | nil =>
    intro acc ex hacc h
    rw [clfGo] at h
    injection h with h1
    subst h1
    exact hacc
  | cons f fs ih =>
    intro acc ex hacc h
    rw [clfGo] at h
    split at h
    · exact ih acc ex hacc h
    · split at h
      · exact Except.noConfusion h
      · exact ih acc ex hacc h
      · split at h
        · exact ih acc ex hacc h
        · rename_i hdrop
          refine ih _ ex ?_ h
          intro kv hkv
          rcases mem_dset acc f.key _ kv hkv with h1 | h2
          · exact hacc kv h1
          · rw [h2]
            exact Bool.eq_false_iff.mpr hdrop

theorem droppedVal_false_good (v : PyVal) (h : droppedVal v = false) :
    (∀ n : ℤ, v = .int n → n ≠ 0) ∧ (∀ q : ℚ, v = .rat q → q ≠ 0) ∧
    (∀ s : String, v = .str s → pyStrip s.data ≠ []) := by
  refine ⟨?_, ?_, ?_⟩
  · intro n hn
    subst hn
    simpa [droppedVal] using h
  · intro q hq
    subst hq
    simpa [droppedVal] using h
  · intro s hs
    subst hs
    intro hnil
    rw [droppedVal, hnil] at h
    simp at h

/-- C9.  Extras produced by either field-registry pass never hold a
numerically zero value or a blank (empty after strip) string. -/
theorem C9_extras_nonzero (df : Df) (col : String) (items : List (String × String))
    (ex1 ex2 : Entry) :
    (collect_table_fields df col = .ok ex1 → ∀ kv ∈ ex1,
      (∀ n : ℤ, kv.2 = .int n → n ≠ 0) ∧ (∀ q : ℚ, kv.2 = .rat q → q ≠ 0) ∧
      (∀ s : String, kv.2 = .str s → pyStrip s.data ≠ [])) ∧
    (collect_list_fields items = .ok ex2 → ∀ kv ∈ ex2,
      (∀ n : ℤ, kv.2 = .int n → n ≠ 0) ∧ (∀ q : ℚ, kv.2 = .rat q → q ≠ 0) ∧
      (∀ s : String, kv.2 = .str s → pyStrip s.data ≠ [])) := by
  constructor
  · intro h kv hkv
    exact droppedVal_false_good _
      (ctfGo_good df col FIELD_DEFS [] ex1 (by simp) h kv hkv)
  · intro h kv hkv
    exact droppedVal_false_good _
      (clfGo_good items FIELD_DEFS [] ex2 (by simp) h kv hkv)

/-- The table used in the C9 witness: one integer field and one text
field, both kept. -/
def dfCrew : Df := ⟨["Val"], [("Crew", ["2"]), ("ICAO code", ["B748"])]⟩

/-- C9 witness: the table clause applied to `dfCrew`, whose extras are
`crew = 2` and `icao_type = "B748"`, specialized to the crew entry. -/
theorem C9_extras_nonzero_witness : (2 : ℤ) ≠ 0 :=
  ((C9_extras_nonzero dfCrew "Val" []
      [("crew", PyVal.int 2), ("icao_type", PyVal.str "B748")] []).1
    (by decide) ("crew", PyVal.int 2) (by decide)).1 2 rfl

/-! ## C5: cargo seat suppression -/

theorem lookup_map_set (k : String) (v : PyVal) :
    ∀ d : Entry, (List.lookup k d).isSome →
      List.lookup k (d.map (fun p => if p.1 = k then (k, v) else p)) = some v := by
  intro d
  induction d with
  | nil => intro h; simp [List.lookup] at h
  | cons p rest ih =>
    obtain ⟨k1, v1⟩ := p
    intro h
    by_cases he : k1 = k
    · subst he
      rw [List.map_cons, if_pos rfl]
      simp [List.lookup]
    · have hb : (k == k1) = false := beq_eq_false_iff_ne.mpr (fun hx => he hx.symm)
      rw [List.map_cons, if_neg he]
      simp only [List.lookup, hb]
      apply ih
      simpa [List.lookup, hb] using h

theorem lookup_append_cases (k : String) :
    ∀ (d l2 : Entry), List.lookup k (d ++ l2) =
      match List.lookup k d with
      | some v => some v
      | none => List.lookup k l2 := by
  intro d l2
  induction d with
  | nil => simp [List.lookup]
  | cons p rest ih =>
    obtain ⟨k1, v1⟩ := p
    by_cases he : k1 = k
    · subst he
      simp [List.lookup]
    · have hb : (k == k1) = false := beq_eq_false_iff_ne.mpr (fun hx => he hx.symm)
      simp only [List.cons_append, List.lookup, hb, List.append_eq, ih]

theorem dlookup_dset_self (d : Entry) (k : String) (v : PyVal) :
    dlookup (dset d k v) k = some v := by
  rw [dset]
  split
  · exact lookup_map_set k v d (by assumption)
  · rename_i hne
    rw [dlookup, lookup_append_cases]
    have hnone : List.lookup k d = none := by
      cases hl : List.lookup k d
      · rfl
      · rw [hl] at hne
        exact absurd rfl hne
    rw [hnone]
    simp [List.lookup]

theorem dlookup_dset_ne (d : Entry) (k : String) (v : PyVal) (k2 : String) (h : k2 ≠ k) :
    dlookup (dset d k v) k2 = dlookup d k2 := by
  rw [dset]
  split
  · rename_i hs
    rw [dlookup, dlookup]
    clear hs
    induction d with
    | nil => simp
    | cons p rest ih =>
      obtain ⟨k1, v1⟩ := p
      by_cases he : k1 = k
      · subst he
        have hb : (k2 == k1) = false := beq_eq_false_iff_ne.mpr h
        rw [List.map_cons, if_pos rfl]
        simp [List.lookup, hb, ih]
      · rw [List.map_cons, if_neg he]
        cases hbe : (k2 == k1) <;> simp [List.lookup, hbe, ih]
  · rw [dlookup, lookup_append_cases]
    have h2 : List.lookup k2 [(k, v)] = none := by
      simp [List.lookup, beq_eq_false_iff_ne.mpr h]
    cases hl : List.lookup k2 d <;> simp [dlookup, hl, h2]

theorem dlookup_dpop_self (d : Entry) (k : String) : dlookup (dpop d k) k = none := by
  rw [dpop, dlookup]
  induction d with
  | nil => rfl
  | cons p rest ih =>
    obtain ⟨k1, v1⟩ := p
    by_cases he : k1 = k
    · subst he
      simpa [List.filter_cons] using ih
    · have hb : (k == k1) = false := beq_eq_false_iff_ne.mpr (fun hx => he hx.symm)
      simpa [List.filter_cons, he, List.lookup, hb] using ih

theorem dlookup_dpop_ne (d : Entry) (k k2 : String) (h : k2 ≠ k) :
    dlookup (dpop d k) k2 = dlookup d k2 := by
  rw [dpop, dlookup, dlookup]
  induction d with
  | nil => rfl
  | cons p rest ih =>
    obtain ⟨k1, v1⟩ := p
    by_cases he : k1 = k
    · subst he
      have hb2 : (k2 == k1) = false := beq_eq_false_iff_ne.mpr h
      simpa [List.filter_cons, List.lookup, hb2] using ih
    · cases hbe : (k2 == k1)
      · simpa [List.filter_cons, he, List.lookup, hbe] using ih
      · simp [List.filter_cons, he, List.lookup, hbe]

/-- C5.  Any record assembled for a cargo-role profile has `seats = 0` and
none of the three/two/one-class seat keys, whatever the extras held. -/
theorem C5_cargo_suppression (plane : AircraftSpec) (doc : Document) (entry : Entry)
    (hrole : plane.role = "cargo") (h : build_entry plane doc = .ok entry) :
    dlookup entry "seats" = some (.int 0) ∧
    dlookup entry "three_class_seats" = none ∧
    dlookup entry "two_class_seats" = none ∧
    dlookup entry "one_class_max_seats" = none := by
  simp only [build_entry] at h
  repeat' split at h
  all_goals try exact Except.noConfusion h
  all_goals try (rename_i hneg; exact absurd hrole hneg)
  injection h with h1
  subst h1
  refine ⟨?_, ?_, ?_, ?_⟩
  · rw [dlookup_dset_ne _ _ _ _ (by decide), dlookup_dset_self]
  · rw [dlookup_dset_ne _ _ _ _ (by decide), dlookup_dset_ne _ _ _ _ (by decide),
      dlookup_dpop_ne _ _ _ (by decide), dlookup_dpop_ne _ _ _ (by decide), dlookup_dpop_self]
  · rw [dlookup_dset_ne _ _ _ _ (by decide), dlookup_dset_ne _ _ _ _ (by decide),
      dlookup_dpop_ne _ _ _ (by decide), dlookup_dpop_self]
  · rw [dlookup_dset_ne _ _ _ _ (by decide), dlookup_dset_ne _ _ _ _ (by decide),
      dlookup_dpop_self]

/-- The Boeing 747-8F document used in the C5 witness. -/
def t747 : RawTable :=
  ⟨["Spec", "747-8F"], [["Range", "8,000 km"], ["Cruise speed", "900 km/h"]]⟩

def doc747 : Document := ⟨[t747], []⟩

/-- The record `build_entry` produces for the 747-8F on `doc747`. -/
def entry747 : Entry :=
  [("id", .str "B747-8F"), ("name", .str "Boeing 747-8F"),
   ("range_km", .rat (round1 8000)), ("seats", .int 0),
   ("cruise_kmh", .rat (round1 900)), ("role", .str "cargo"),
   ("turnaround_min", .int 100), ("fuel_cost_per_km", .rat 0)]

theorem build_entry_747 : build_entry plane_B747_8F doc747 = .ok entry747 := rfl

/-- C5 witness: the suppression applied to the 747-8F record. -/
theorem C5_cargo_suppression_witness :
    dlookup entry747 "seats" = some (.int 0) ∧
    dlookup entry747 "three_class_seats" = none ∧
    dlookup entry747 "two_class_seats" = none ∧
    dlookup entry747 "one_class_max_seats" = none :=
  C5_cargo_suppression plane_B747_8F doc747 entry747 rfl build_entry_747

/-! ## C6: derived fuel cost -/

/-- C6.  Seats-based models charge `round2 (seats × factor)`; payload-based
models charge `round2 (payload × factor)`, with max takeoff weight standing
in for an absent payload; an absent or zero basis falls back to
`seats × factor` when seats is positive, and the cost is 0 with no basis at
all; a payload-based model with payload absent, `mtow = 80000` and factor
`0.00005` yields `4.00`. -/
theorem C6_fuel_cost (plane : AircraftSpec) (data : Entry) (f : ℚ) :
    (List.lookup plane.fuel_profile FUEL_PROFILES = some ("seats", f) →
      (∀ n : ℤ, dlookup data "seats" = some (.int n) → 0 < n →
        compute_fuel_cost plane data = .ok (round2 ((n : ℚ) * f))) ∧
      (dlookup data "seats" = none → compute_fuel_cost plane data = .ok 0)) ∧
    (List.lookup plane.fuel_profile FUEL_PROFILES = some ("payload", f) →
      (∀ q : ℚ, dlookup data "max_payload_kg" = some (.rat q) → 0 < q →
        compute_fuel_cost plane data = .ok (round2 (q * f))) ∧
      (∀ w : ℚ, dlookup data "max_payload_kg" = none → dlookup data "mtow_kg" = some (.rat w) →
        0 < w → compute_fuel_cost plane data = .ok (round2 (w * f))) ∧
      (∀ n : ℤ, dlookup data "max_payload_kg" = none → dlookup data "mtow_kg" = none →
        dlookup data "seats" = some (.int n) → 0 < n →
        compute_fuel_cost plane data = .ok (round2 ((n : ℚ) * f))) ∧
      (dlookup data "max_payload_kg" = none → dlookup data "mtow_kg" = none →
        dlookup data "seats" = none → compute_fuel_cost plane data = .ok 0)) ∧
    compute_fuel_cost plane_B747_8F [("mtow_kg", .rat 80000)] = .ok 4 := by
  refine ⟨fun hprof => ⟨fun n hs hn => ?_, fun hs => ?_⟩,
    fun hprof => ⟨fun q hp hq => ?_, fun w hp hm hw => ?_, fun n hp hm hs hn => ?_,
      fun hp hm hs => ?_⟩, ?_⟩
  · have ht : truthy (.int n) = true := by simp [truthy]; omega
    have hble : ¬ ((n : ℚ) ≤ 0) := not_le.mpr (by exact_mod_cast hn)
    simp only [compute_fuel_cost, hprof, if_pos rfl, dgetD, hs, Option.getD_some, ht,
      if_true, valueToQ]
    rw [if_neg (fun hc => hble hc.1), if_neg hble]
  · simp only [compute_fuel_cost, hprof, if_pos rfl, dgetD, hs, Option.getD_none,
      truthy, valueToQ]
    norm_num
  · have ht : truthy (.rat q) = true := by simp [truthy]; exact ne_of_gt hq
    have hble : ¬ (q ≤ 0) := not_le.mpr hq
    simp only [compute_fuel_cost, hprof, reduceIte, hp, ht, if_true, valueToQ]
    split
    · rename_i he
      exact Except.noConfusion he
    · rename_i base hb
      injection hb with hb1
      subst hb1
      rw [if_neg (fun hc => hble hc.1), if_neg hble]
  · have ht : truthy (.rat w) = true := by simp [truthy]; exact ne_of_gt hw
    have hble : ¬ (w ≤ 0) := not_le.mpr hw
    simp only [compute_fuel_cost, hprof, reduceIte, hp, hm, ht, if_true, valueToQ]
    split
    · rename_i he
      exact Except.noConfusion he
    · rename_i base hb
      injection hb with hb1
      subst hb1
      rw [if_neg (fun hc => hble hc.1), if_neg hble]
  · have ht : truthy (.int n) = true := by simp [truthy]; omega
    have hble : ¬ ((n : ℚ) ≤ 0) := not_le.mpr (by exact_mod_cast hn)
    simp only [compute_fuel_cost, hprof, reduceIte, hp, hm, hs, ht, and_true, dgetD,
      Option.getD_some, valueToQ]
    rw [if_neg (by decide : ¬ (("payload" : String) = "seats"))]
    split
    · rename_i he
      exact Except.noConfusion he
    · rename_i base hb
      injection hb with hb1
      subst hb1
      rw [if_pos (by norm_num : (0 : ℚ) ≤ 0), if_neg hble]
  · simp only [compute_fuel_cost, hprof, reduceIte, hp, hm, hs, Bool.false_eq_true,
      and_false, if_false]
    rw [if_neg (by decide : ¬ (("payload" : String) = "seats"))]
    split
    · rename_i he
      exact Except.noConfusion he
    · rename_i base hb
      injection hb with hb1
      subst hb1
      rw [if_pos (by norm_num : (0 : ℚ) ≤ 0)]
  · have h1 : compute_fuel_cost plane_B747_8F [("mtow_kg", .rat 80000)] =
        .ok (round2 ((80000 : ℚ) * (5 / 100000))) := rfl
    rw [h1, (by norm_num : ((80000 : ℚ) * (5 / 100000)) = ((4 : ℤ) : ℚ)), round2_intCast]
    norm_num

/-- C6 witness: the seats-model clause applied to the CRJ900 profile with
90 seats. -/
theorem C6_fuel_cost_witness :
    compute_fuel_cost plane_CRJ9 [("seats", PyVal.int 90)] =
      .ok (round2 (((90 : ℤ) : ℚ) * (24 / 1000))) :=
  ((C6_fuel_cost plane_CRJ9 [("seats", PyVal.int 90)] (24 / 1000)).1 rfl).1 90 rfl
    (by norm_num)

/-! ## C2: a per-profile failure aborts the batch -/

/-- A fetch environment in which the first-ranked profile's page has no
qualifying table while every other page carries a CRJ900-compatible one. -/
def envFail : FetchEnv := fun page => if page = "ATR_72" then docBad else docCRJ

/-- The record CRJ900 extraction would produce under `envFail`. -/
def entryCRJ9 : Entry :=
  [("id", .str "CRJ9"), ("name", .str "Bombardier CRJ900"),
   ("range_km", .rat (round1 2000)), ("seats", .int 90),
   ("cruise_kmh", .rat (round1 800)), ("role", .str "passenger"),
   ("turnaround_min", .int 25),
   ("fuel_cost_per_km", .rat (round2 (((90 : ℤ) : ℚ) * (24 / 1000))))]

/-- C2 counterexample.  Under `envFail` the CRJ900 profile alone extracts
fine, but the batch stops at the ATR72 failure with an exception and emits
no records at all, so other profiles' records are not produced. -/
theorem C2_batch_abort_counterexample :
    build_entry plane_CRJ9 (envFail plane_CRJ9.wiki_page) = .ok entryCRJ9 ∧
    mainBatch envFail = .error "ATR72: specification table not found" :=
  ⟨rfl, rfl⟩

theorem mainGo_ok_all (env : FetchEnv) :
    ∀ (l : List AircraftSpec) (es : List Entry), mainGo env l = .ok es →
      ∀ p ∈ l, ∃ en, build_entry p (env p.wiki_page) = .ok en := by
  intro l
  induction l with
  | nil => intro es _ p hp; exact absurd hp (List.not_mem_nil p)
  | cons q rest ih =>
    intro es h p hp
    rw [mainGo] at h
    split at h
    · exact Except.noConfusion h
    · rename_i en hq
      split at h
      · exact Except.noConfusion h
      · rename_i es2 hrest
        rcases List.mem_cons.mp hp with h1 | h2
        · exact ⟨en, h1 ▸ hq⟩
        · exact ih es2 hrest p h2

/-- C2 amended.  `main` has no per-profile error handling: the batch
succeeds only when every profile succeeds, and any profile failure makes
the whole batch return that failure, producing no records — profiles after
the failure are not processed. -/
theorem C2_failure_aborts_batch (env : FetchEnv) (p : AircraftSpec) (e : String)
    (es : List Entry) :
    (mainBatch env = .ok es →
      ∀ p2 ∈ sortByOrder PLANES, ∃ en, build_entry p2 (env p2.wiki_page) = .ok en) ∧
    (p ∈ sortByOrder PLANES → build_entry p (env p.wiki_page) = .error e →
      ∃ e2, mainBatch env = .error e2) := by
  constructor
  · intro h
    exact mainGo_ok_all env (sortByOrder PLANES) es h
  · intro hp he
    cases hm : mainBatch env with
    | error e2 => exact ⟨e2, rfl⟩
    | ok es2 =>
      obtain ⟨en, hok⟩ := mainGo_ok_all env (sortByOrder PLANES) es2 hm p hp
      rw [he] at hok
      exact Except.noConfusion hok

/-- C2 witness: the abort clause applied to `envFail` and the ATR72
profile. -/
theorem C2_failure_aborts_batch_witness :
    ∃ e2, mainBatch envFail = .error e2 :=
  (C2_failure_aborts_batch envFail plane_ATR72
      "ATR72: specification table not found" []).2 (by decide) rfl
